import Mathlib

/-!
Shallow embedding of the server-management CRUD service
(`app/routers/servers.py`, `app/models.py`, `app/constants.py`).

The relational store is modelled as explicit state: a list of server rows,
a list of existing datacenter ids, and a list of switch-to-server
association rows, together with the id the store will assign to the next
inserted server.  Each endpoint handler of `servers.py` is embedded as a
pure function from the store state (plus the current time `now` standing
for SQL `NOW()`) to an `Outcome`: the HTTP-level result, the state after
the transaction commits or rolls back, and the ordered list of mutating
SQL statements the handler issued.  SELECT statements are reads and do not
appear in the write log.  Column values that SQL can set to NULL are
`Option`-typed, matching a schema with nullable columns and psycopg2
returning `None` for both SQL NULL and JSON null.
-/

namespace ServerMgmt

/-- Embeds `ServerConfiguration` of `app/models.py`: a structured hardware
configuration document with three optional integer fields.  Range/enum
validation is performed by the pydantic collaborator before a handler
runs and is not needed by the handler logic embedded here. -/
structure ServerConfiguration where
  cpu_cores : Option Int := none
  ram_gb : Option Int := none
  disk_gb : Option Int := none
deriving Repr, DecidableEq

/-- Embeds `ServerBase` of `app/models.py`: the create-request body.
Note there is no `id` field: a client cannot supply one. -/
structure ServerBase where
  hostname : String
  configuration : ServerConfiguration
  datacenter_id : Int
deriving Repr, DecidableEq

/-- Embeds `ServerUpdate` of `app/models.py` together with pydantic's
`model_dump(exclude_unset=True)` semantics used in `update_server`: the
outer `Option` records whether the field was explicitly supplied in the
request body, the inner `Option` is the supplied value, which may be an
explicit JSON `null` (`none`). -/
structure ServerUpdate where
  hostname : Option (Option String) := none
  configuration : Option (Option ServerConfiguration) := none
  datacenter_id : Option (Option Int) := none
deriving Repr, DecidableEq

/-- A row of `public.server`.  `id` is store-assigned; timestamps are
abstract instants (integers); columns a SQL UPDATE can set to NULL are
`Option`-typed. -/
structure ServerRow where
  id : Int
  hostname : Option String
  configuration : Option ServerConfiguration
  datacenter_id : Option Int
  created_at : Int
  modified_at : Int
deriving Repr, DecidableEq

/-- A row of `public.switch_to_server`: the association between a switch
and a server. -/
structure SwitchToServerRow where
  switch_id : Int
  server_id : Int
deriving Repr, DecidableEq

/-- The relational store state visible to the handlers: the three tables
the router touches (`public.server`, `public.datacenter` — of which only
the ids matter here — and `public.switch_to_server`), plus the id the
store assigns to the next inserted server row. -/
structure DBState where
  datacenters : List Int
  servers : List ServerRow
  switchToServer : List SwitchToServerRow
  nextId : Int
deriving Repr, DecidableEq

/-- Errors the handlers raise (`HTTPException`) or the store signals. -/
inductive ApiError where
  | invalidReference (datacenter_id : Option Int)
  | notFound (id : Int)
  | noFieldsToUpdate
  | storeFailure
deriving Repr, DecidableEq

/-- HTTP status code attached to each error by `servers.py`
(`HTTP_400_BAD_REQUEST`, `HTTP_404_NOT_FOUND`) and, for store-level
failures, by the framework. -/
def ApiError.statusCode : ApiError → Nat
  | .invalidReference _ => 400
  | .notFound _ => 404
  | .noFieldsToUpdate => 400
  | .storeFailure => 500

/-- One `column = %s` assignment accumulated by `update_server`'s
dynamic SET-clause builder. -/
inductive ColumnAssign where
  | hostname (v : Option String)
  | configuration (v : Option ServerConfiguration)
  | datacenter_id (v : Option Int)
deriving Repr, DecidableEq

/-- A mutating SQL statement issued by a handler, in issue order. -/
inductive WriteOp where
  | insertServer (hostname : String) (configuration : ServerConfiguration)
      (datacenter_id : Int)
  | updateServer (id : Int) (fields : List ColumnAssign)
  | deleteSwitchToServer (server_id : Int)
  | deleteServer (id : Int)
deriving Repr, DecidableEq

/-- Result of one request: the handler's HTTP-level result, the store
state after the per-request transaction commits (or rolls back, on any
raised error), and the mutating statements issued inside it. -/
structure Outcome (α : Type) where
  result : Except ApiError α
  state : DBState
  writes : List WriteOp
deriving Repr

/-- Embeds `SELECT id FROM public.datacenter WHERE id = %s` followed by
the emptiness check of `fetchone()`.  A SQL `NULL` parameter (`none`)
matches no row, since `id = NULL` is never true. -/
def datacenterExists (st : DBState) (v : Option Int) : Bool :=
  match v with
  | none => false
  | some d => st.datacenters.contains d

/-- Embeds `SELECT ... FROM public.server WHERE id = %s` + `fetchone()`. -/
def findServer (st : DBState) (server_id : Int) : Option ServerRow :=
  st.servers.find? (fun r => r.id == server_id)

/-- Ascending-id order used by the list endpoint's `ORDER BY id`. -/
def serverIdLE (a b : ServerRow) : Prop := a.id ≤ b.id

instance : DecidableRel serverIdLE :=
  fun a b => inferInstanceAs (Decidable (a.id ≤ b.id))

instance : IsTotal ServerRow serverIdLE :=
  ⟨fun a b => Int.le_total a.id b.id⟩

instance : IsTrans ServerRow serverIdLE :=
  ⟨fun _ _ _ h1 h2 => le_trans h1 h2⟩

/-- Embeds `ORDER BY id` of the list query. -/
def sortById (l : List ServerRow) : List ServerRow :=
  List.insertionSort serverIdLE l

/-- Default of the `skip` query parameter in `get_all_servers`. -/
def defaultSkip : Int := 0

/-- Default of the `limit` query parameter in `get_all_servers`. -/
def defaultLimit : Int := 100

/-- Embeds `limit = min(limit, 1000)` of `get_all_servers`: the page size
actually used against the store. -/
def effectiveLimit (limit : Int) : Int := min limit 1000

/-- Embeds `get_all_servers` of `app/routers/servers.py`: cap `limit` at
1000, then run
`SELECT ... FROM public.server ORDER BY id LIMIT %s OFFSET %s`.
A negative `LIMIT` or `OFFSET` parameter is a store-level error in
PostgreSQL. -/
def get_all_servers (st : DBState) (skip : Int) (limit : Int) :
    Outcome (List ServerRow) :=
  let lim := effectiveLimit limit
  if skip < 0 ∨ lim < 0 then ⟨.error .storeFailure, st, []⟩
  else ⟨.ok (((sortById st.servers).drop skip.toNat).take lim.toNat), st, []⟩

/-- Embeds `get_server` of `app/routers/servers.py`: select the row by id,
404 when `fetchone()` returns nothing, otherwise return the row. -/
def get_server (st : DBState) (server_id : Int) : Outcome ServerRow :=
  match findServer st server_id with
  | none => ⟨.error (.notFound server_id), st, []⟩
  | some r => ⟨.ok r, st, []⟩

/-- The Python value handed to `psycopg2.extras.Json` for the
`configuration` parameter: on the create path (`servers.py` line 137) it
is the pydantic `ServerConfiguration` model instance itself; on the
update path it is the plain document `model_dump(exclude_unset=True)`
produced (a dict, or `None` for an explicit null). -/
inductive PyJsonArg where
  | pydanticModel (c : ServerConfiguration)
  | plainDoc (c : Option ServerConfiguration)
deriving Repr, DecidableEq

/-- Embeds stdlib `json.dumps` as `psycopg2.extras.Json` invokes it
during parameter adaptation of `cur.execute`: a plain document
serializes to the corresponding jsonb value, but a pydantic `BaseModel`
instance is not JSON-serializable, so adaptation raises `TypeError` —
an unhandled server failure (500) occurring before the statement
reaches the store. -/
def jsonDumps : PyJsonArg → Except ApiError (Option ServerConfiguration)
  | .pydanticModel _ => .error .storeFailure
  | .plainDoc c => .ok c

/-- Embeds `create_server` of `app/routers/servers.py`: check the
datacenter exists (400 before any write when it does not), then execute
`INSERT INTO public.server (hostname, configuration, datacenter_id)
VALUES (%s, %s, %s) RETURNING ...`.  Executing the INSERT first adapts
its parameters: `psycopg2.extras.Json(server.configuration)` wraps the
pydantic model instance (`models.py` types the field as
`ServerConfiguration`), whose `json.dumps` raises `TypeError`, so the
INSERT never executes and the transaction rolls back.  The `.ok` branch
records what the INSERT would do (store-assigned `id`, both timestamp
columns set to `NOW()`), but `jsonDumps` on a pydantic model never
returns it. -/
def create_server (st : DBState) (now : Int) (server : ServerBase) :
    Outcome ServerRow :=
  if datacenterExists st (some server.datacenter_id) then
    match jsonDumps (.pydanticModel server.configuration) with
    | .error e => ⟨.error e, st, []⟩
    | .ok cfg =>
        let newRow : ServerRow :=
          { id := st.nextId
            hostname := some server.hostname
            configuration := cfg
            datacenter_id := some server.datacenter_id
            created_at := now
            modified_at := now }
        ⟨.ok newRow,
          { st with servers := st.servers ++ [newRow], nextId := st.nextId + 1 },
          [.insertServer server.hostname server.configuration
              server.datacenter_id]⟩
  else ⟨.error (.invalidReference (some server.datacenter_id)), st, []⟩

/-- Embeds the SET-clause builder loop of `update_server`: iterate over
the explicitly supplied fields in model-field order (hostname,
configuration, datacenter_id — the order `model_dump(exclude_unset=True)`
yields), appending one assignment per supplied field; when
`datacenter_id` is supplied, its existence check runs at that point in
the loop, raising 400 on failure before any write statement exists. -/
def buildUpdateFields (st : DBState) (u : ServerUpdate) :
    Except ApiError (List ColumnAssign) :=
  let fs : List ColumnAssign :=
    match u.hostname with
    | none => []
    | some v => [ColumnAssign.hostname v]
  let fs : List ColumnAssign :=
    fs ++ (match u.configuration with
           | none => []
           | some v => [ColumnAssign.configuration v])
  match u.datacenter_id with
  | none => .ok fs
  | some v =>
      if datacenterExists st v then .ok (fs ++ [ColumnAssign.datacenter_id v])
      else .error (.invalidReference v)

/-- Applies one accumulated `column = %s` assignment to a row. -/
def applyAssign (r : ServerRow) (a : ColumnAssign) : ServerRow :=
  match a with
  | .hostname v => { r with hostname := v }
  | .configuration v => { r with configuration := v }
  | .datacenter_id v => { r with datacenter_id := v }

/-- Applies the whole SET clause of the dynamic UPDATE: the accumulated
assignments in order, then the always-appended `modified_at = NOW()`. -/
def applyAssigns (now : Int) (r : ServerRow) (fs : List ColumnAssign) :
    ServerRow :=
  { fs.foldl applyAssign r with modified_at := now }

/-- Embeds `update_server` of `app/routers/servers.py`: build the
assignment list (datacenter check inside the loop), 400 when it is empty,
then `UPDATE public.server SET ... , modified_at = NOW() WHERE id = %s
RETURNING ...`; an empty `RETURNING` (`fetchone()` is `None`) raises 404
and the transaction rolls back (a zero-row UPDATE mutated nothing
anyway). -/
def update_server (st : DBState) (now : Int) (server_id : Int)
    (u : ServerUpdate) : Outcome ServerRow :=
  match buildUpdateFields st u with
  | .error e => ⟨.error e, st, []⟩
  | .ok fields =>
      if fields.isEmpty then ⟨.error .noFieldsToUpdate, st, []⟩
      else
        match findServer st server_id with
        | none =>
            ⟨.error (.notFound server_id), st,
              [.updateServer server_id fields]⟩
        | some r =>
            ⟨.ok (applyAssigns now r fields),
              { st with servers :=
                  st.servers.map (fun x =>
                    if x.id == server_id then applyAssigns now x fields
                    else x) },
              [.updateServer server_id fields]⟩

/-- Embeds `delete_server` of `app/routers/servers.py`: select the row
(404 with no write when absent), then issue exactly two DELETEs in order:
first `DELETE FROM public.switch_to_server WHERE server_id = %s`, then
`DELETE FROM public.server WHERE id = %s`.  (The COUNT query before them
is a read.) -/
def delete_server (st : DBState) (server_id : Int) : Outcome Unit :=
  match findServer st server_id with
  | none => ⟨.error (.notFound server_id), st, []⟩
  | some _ =>
      ⟨.ok (),
        { st with
            switchToServer :=
              st.switchToServer.filter (fun a => !(a.server_id == server_id))
            servers := st.servers.filter (fun r => !(r.id == server_id)) },
        [.deleteSwitchToServer server_id, .deleteServer server_id]⟩

/-- Success status of the DELETE route
(`status_code=status.HTTP_204_NO_CONTENT` on the decorator). -/
def deleteSuccessStatus : Nat := 204

/-- HTTP status of a handler result given the route's success code. -/
def httpStatus (success : Nat) (o : Except ApiError α) : Nat :=
  match o with
  | .ok _ => success
  | .error e => e.statusCode

/-- C1: deleting an existing server issues exactly two writes, in order
the association-table delete then the server-row delete; afterwards no
association row references the id and the server row is absent; the
result is success, reported with status 204. -/
theorem delete_server_cascade (st : DBState) (sid : Int) (r : ServerRow)
    (h : findServer st sid = some r) :
    (delete_server st sid).writes =
      [WriteOp.deleteSwitchToServer sid, WriteOp.deleteServer sid]
    ∧ (∀ a ∈ (delete_server st sid).state.switchToServer, a.server_id ≠ sid)
    ∧ (∀ x ∈ (delete_server st sid).state.servers, x.id ≠ sid)
    ∧ (delete_server st sid).result = .ok ()
    ∧ httpStatus deleteSuccessStatus (delete_server st sid).result = 204 := by
  simp only [delete_server, h]
  refine ⟨by trivial, ?_, ?_, by trivial, by trivial⟩
  · intro a ha
    have := (List.mem_filter.mp ha).2
    simpa using this
  · intro x hx
    have := (List.mem_filter.mp hx).2
    simpa using this

/-- A concrete server row used by witness instantiations. -/
def rowW : ServerRow :=
  { id := 5, hostname := some "db1", configuration := some {},
    datacenter_id := some 1, created_at := 0, modified_at := 0 }

/-- A concrete store used by witness instantiations: datacenter 1 exists,
server 5 exists with three switch associations. -/
def stW : DBState :=
  { datacenters := [1]
    servers := [rowW]
    switchToServer := [⟨10, 5⟩, ⟨11, 5⟩, ⟨12, 5⟩]
    nextId := 6 }

/-- Witness for C1 on a concrete store: server 5 exists with three
association rows; after the delete none remain and the row is gone. -/
theorem delete_server_cascade_witness :
    findServer stW 5 = some rowW
    ∧ ((delete_server stW 5).writes =
        [WriteOp.deleteSwitchToServer 5, WriteOp.deleteServer 5]
      ∧ (∀ a ∈ (delete_server stW 5).state.switchToServer, a.server_id ≠ 5)
      ∧ (∀ x ∈ (delete_server stW 5).state.servers, x.id ≠ 5)
      ∧ (delete_server stW 5).result = .ok ()
      ∧ httpStatus deleteSuccessStatus (delete_server stW 5).result = 204) :=
  ⟨by decide, delete_server_cascade stW 5 rowW (by decide)⟩

/-- The assignment list `buildUpdateFields` produces when every supplied
`datacenter_id` passes the existence check: one assignment per supplied
field, in model-field order. -/
def expectedFields (u : ServerUpdate) : List ColumnAssign :=
  (match u.hostname with
   | none => []
   | some v => [ColumnAssign.hostname v]) ++
  (match u.configuration with
   | none => []
   | some v => [ColumnAssign.configuration v]) ++
  (match u.datacenter_id with
   | none => []
   | some v => [ColumnAssign.datacenter_id v])

theorem buildUpdateFields_ok (st : DBState) (u : ServerUpdate)
    (hdc : ∀ v, u.datacenter_id = some v → datacenterExists st v = true) :
    buildUpdateFields st u = .ok (expectedFields u) := by
  obtain ⟨uh, uc, ud⟩ := u
  cases ud with
  | none => simp [buildUpdateFields, expectedFields]
  | some w =>
      have hd := hdc w rfl
      simp [buildUpdateFields, expectedFields, hd, List.append_assoc]

theorem expectedFields_ne_nil (u : ServerUpdate)
    (hsome : u.hostname ≠ none ∨ u.configuration ≠ none ∨
      u.datacenter_id ≠ none) :
    expectedFields u ≠ [] := by
  obtain ⟨uh, uc, ud⟩ := u
  cases uh <;> cases uc <;> cases ud <;> simp_all [expectedFields]

theorem expectedFields_no_hostname (u : ServerUpdate)
    (hh : u.hostname = none) :
    ∀ v, ColumnAssign.hostname v ∉ expectedFields u := by
  obtain ⟨uh, uc, ud⟩ := u
  cases uh <;> cases uc <;> cases ud <;> simp_all [expectedFields]

theorem expectedFields_no_configuration (u : ServerUpdate)
    (hc : u.configuration = none) :
    ∀ v, ColumnAssign.configuration v ∉ expectedFields u := by
  obtain ⟨uh, uc, ud⟩ := u
  cases uh <;> cases uc <;> cases ud <;> simp_all [expectedFields]

theorem expectedFields_no_datacenter (u : ServerUpdate)
    (hd : u.datacenter_id = none) :
    ∀ v, ColumnAssign.datacenter_id v ∉ expectedFields u := by
  obtain ⟨uh, uc, ud⟩ := u
  cases uh <;> cases uc <;> cases ud <;> simp_all [expectedFields]

theorem foldl_applyAssign_created_at :
    ∀ (fs : List ColumnAssign) (r : ServerRow),
      (fs.foldl applyAssign r).created_at = r.created_at
  | [], _ => rfl
  | a :: l, r => by
      rw [List.foldl_cons, foldl_applyAssign_created_at l (applyAssign r a)]
      cases a <;> rfl

theorem foldl_applyAssign_hostname :
    ∀ (fs : List ColumnAssign) (r : ServerRow),
      (∀ v, ColumnAssign.hostname v ∉ fs) →
      (fs.foldl applyAssign r).hostname = r.hostname
  | [], _, _ => rfl
  | a :: l, r, h => by
      cases a with
      | hostname v => exact absurd (List.mem_cons_self _ _) (h v)
      | configuration v =>
          rw [List.foldl_cons,
            foldl_applyAssign_hostname l _
              (fun w hw => h w (List.mem_cons_of_mem _ hw))]
          rfl
      | datacenter_id v =>
          rw [List.foldl_cons,
            foldl_applyAssign_hostname l _
              (fun w hw => h w (List.mem_cons_of_mem _ hw))]
          rfl

theorem foldl_applyAssign_configuration :
    ∀ (fs : List ColumnAssign) (r : ServerRow),
      (∀ v, ColumnAssign.configuration v ∉ fs) →
      (fs.foldl applyAssign r).configuration = r.configuration
  | [], _, _ => rfl
  | a :: l, r, h => by
      cases a with
      | configuration v => exact absurd (List.mem_cons_self _ _) (h v)
      | hostname v =>
          rw [List.foldl_cons,
            foldl_applyAssign_configuration l _
              (fun w hw => h w (List.mem_cons_of_mem _ hw))]
          rfl
      | datacenter_id v =>
          rw [List.foldl_cons,
            foldl_applyAssign_configuration l _
              (fun w hw => h w (List.mem_cons_of_mem _ hw))]
          rfl

theorem foldl_applyAssign_datacenter :
    ∀ (fs : List ColumnAssign) (r : ServerRow),
      (∀ v, ColumnAssign.datacenter_id v ∉ fs) →
      (fs.foldl applyAssign r).datacenter_id = r.datacenter_id
  | [], _, _ => rfl
  | a :: l, r, h => by
      cases a with
      | datacenter_id v => exact absurd (List.mem_cons_self _ _) (h v)
      | hostname v =>
          rw [List.foldl_cons,
            foldl_applyAssign_datacenter l _
              (fun w hw => h w (List.mem_cons_of_mem _ hw))]
          rfl
      | configuration v =>
          rw [List.foldl_cons,
            foldl_applyAssign_datacenter l _
              (fun w hw => h w (List.mem_cons_of_mem _ hw))]
          rfl

theorem update_server_result_ok (st : DBState) (now sid : Int)
    (u : ServerUpdate) (fs : List ColumnAssign) (r : ServerRow)
    (hb : buildUpdateFields st u = .ok fs) (hne : fs ≠ [])
    (hfind : findServer st sid = some r) :
    (update_server st now sid u).result = .ok (applyAssigns now r fs) := by
  have he : fs.isEmpty = false := by
    cases fs with
    | nil => exact absurd rfl hne
    | cons a l => rfl
  simp [update_server, hb, hfind, he]

/-- C2: a partial update on an existing server leaves every column not
named in the supplied subset unchanged (and `created_at` unchanged),
while `modified_at` strictly increases; only the supplied fields are
assigned. -/
theorem update_server_frame (st : DBState) (now sid : Int) (u : ServerUpdate)
    (r : ServerRow)
    (hfind : findServer st sid = some r)
    (hdc : ∀ v, u.datacenter_id = some v → datacenterExists st v = true)
    (hsome : u.hostname ≠ none ∨ u.configuration ≠ none ∨
      u.datacenter_id ≠ none)
    (hnow : r.modified_at < now) :
    ∃ r', (update_server st now sid u).result = .ok r'
      ∧ (u.hostname = none → r'.hostname = r.hostname)
      ∧ (u.configuration = none → r'.configuration = r.configuration)
      ∧ (u.datacenter_id = none → r'.datacenter_id = r.datacenter_id)
      ∧ r'.created_at = r.created_at
      ∧ r.modified_at < r'.modified_at := by
  have hb := buildUpdateFields_ok st u hdc
  have hne := expectedFields_ne_nil u hsome
  refine ⟨applyAssigns now r (expectedFields u),
    update_server_result_ok st now sid u _ r hb hne hfind, ?_, ?_, ?_, ?_, ?_⟩
  · intro hh
    exact foldl_applyAssign_hostname _ _ (expectedFields_no_hostname u hh)
  · intro hc
    exact foldl_applyAssign_configuration _ _
      (expectedFields_no_configuration u hc)
  · intro hd
    exact foldl_applyAssign_datacenter _ _ (expectedFields_no_datacenter u hd)
  · exact foldl_applyAssign_created_at _ _
  · exact hnow

/-- A concrete partial update supplying only `hostname`. -/
def updHostnameW : ServerUpdate := { hostname := some (some "renamed") }

/-- Witness for C2: updating only `hostname` of server 5 at time 10
leaves `configuration`, `datacenter_id` and `created_at` unchanged and
strictly increases `modified_at`. -/
theorem update_server_frame_witness :
    (findServer stW 5 = some rowW
      ∧ (∀ v, updHostnameW.datacenter_id = some v →
          datacenterExists stW v = true)
      ∧ (updHostnameW.hostname ≠ none ∨ updHostnameW.configuration ≠ none ∨
          updHostnameW.datacenter_id ≠ none)
      ∧ rowW.modified_at < 10)
    ∧ (∃ r', (update_server stW 10 5 updHostnameW).result = .ok r'
      ∧ (updHostnameW.hostname = none → r'.hostname = rowW.hostname)
      ∧ (updHostnameW.configuration = none →
          r'.configuration = rowW.configuration)
      ∧ (updHostnameW.datacenter_id = none →
          r'.datacenter_id = rowW.datacenter_id)
      ∧ r'.created_at = rowW.created_at
      ∧ rowW.modified_at < r'.modified_at) :=
  ⟨⟨by decide, by decide, by decide, by decide⟩,
    update_server_frame stW 10 5 updHostnameW rowW (by decide) (by decide)
      (by decide) (by decide)⟩

theorem buildUpdateFields_err (st : DBState) (u : ServerUpdate)
    (v : Option Int) (hup : u.datacenter_id = some v)
    (hv : datacenterExists st v = false) :
    buildUpdateFields st u = .error (.invalidReference v) := by
  obtain ⟨uh, uc, ud⟩ := u
  cases ud with
  | none => exact absurd hup (by simp)
  | some w =>
      have hw : w = v := by simpa using hup
      subst hw
      simp [buildUpdateFields, hv]

/-- C3: a create or update supplying a `datacenter_id` that matches no
Datacenter row fails with InvalidReference (status 400), leaves the store
unchanged, and issues no mutating statement at all. -/
theorem invalid_datacenter_rejected (st : DBState) (now sid : Int)
    (s : ServerBase) (u : ServerUpdate) (v : Option Int)
    (hcs : datacenterExists st (some s.datacenter_id) = false)
    (hup : u.datacenter_id = some v)
    (hv : datacenterExists st v = false) :
    ((create_server st now s).result =
        .error (.invalidReference (some s.datacenter_id))
      ∧ (create_server st now s).state = st
      ∧ (create_server st now s).writes = [])
    ∧ ((update_server st now sid u).result = .error (.invalidReference v)
      ∧ (update_server st now sid u).state = st
      ∧ (update_server st now sid u).writes = [])
    ∧ (ApiError.invalidReference v).statusCode = 400 := by
  have hb := buildUpdateFields_err st u v hup hv
  refine ⟨⟨?_, ?_, ?_⟩, ⟨?_, ?_, ?_⟩, rfl⟩ <;>
    simp [create_server, update_server, hcs, hb]

/-- A concrete create body naming the nonexistent datacenter 999. -/
def baseBadDcW : ServerBase :=
  { hostname := "web1", configuration := {}, datacenter_id := 999 }

/-- A concrete partial update supplying the nonexistent datacenter 999. -/
def updBadDcW : ServerUpdate := { datacenter_id := some (some 999) }

/-- Witness for C3: against the concrete store (only datacenter 1
exists), creating with datacenter 999 and updating server 5 to
datacenter 999 both fail with InvalidReference, change nothing, and
issue no write. -/
theorem invalid_datacenter_rejected_witness :
    (datacenterExists stW (some baseBadDcW.datacenter_id) = false
      ∧ updBadDcW.datacenter_id = some (some 999)
      ∧ datacenterExists stW (some 999) = false)
    ∧ (((create_server stW 7 baseBadDcW).result =
        .error (.invalidReference (some baseBadDcW.datacenter_id))
      ∧ (create_server stW 7 baseBadDcW).state = stW
      ∧ (create_server stW 7 baseBadDcW).writes = [])
    ∧ ((update_server stW 7 5 updBadDcW).result =
        .error (.invalidReference (some 999))
      ∧ (update_server stW 7 5 updBadDcW).state = stW
      ∧ (update_server stW 7 5 updBadDcW).writes = [])
    ∧ (ApiError.invalidReference (some 999)).statusCode = 400) :=
  ⟨⟨by decide, by decide, by decide⟩,
    invalid_datacenter_rejected stW 7 5 baseBadDcW updBadDcW (some 999)
      (by decide) (by decide) (by decide)⟩

/-- C5: an update supplying zero recognized fields fails with
NoFieldsToUpdate (status 400), leaves the store unchanged (so the target
row's `modified_at` is not refreshed), and issues no write. -/
theorem empty_update_rejected (st : DBState) (now sid : Int)
    (u : ServerUpdate)
    (h1 : u.hostname = none) (h2 : u.configuration = none)
    (h3 : u.datacenter_id = none) :
    (update_server st now sid u).result = .error .noFieldsToUpdate
    ∧ (update_server st now sid u).state = st
    ∧ (update_server st now sid u).writes = []
    ∧ ApiError.noFieldsToUpdate.statusCode = 400 := by
  obtain ⟨uh, uc, ud⟩ := u
  simp only at h1 h2 h3
  subst h1; subst h2; subst h3
  refine ⟨?_, ?_, ?_, rfl⟩ <;> simp [update_server, buildUpdateFields]

/-- The empty partial update (no field explicitly supplied). -/
def updEmptyW : ServerUpdate := {}

/-- Witness for C5: the empty update of server 5 fails with
NoFieldsToUpdate and the store — including `modified_at` of row 5 — is
untouched. -/
theorem empty_update_rejected_witness :
    (updEmptyW.hostname = none ∧ updEmptyW.configuration = none
      ∧ updEmptyW.datacenter_id = none)
    ∧ ((update_server stW 9 5 updEmptyW).result = .error .noFieldsToUpdate
      ∧ (update_server stW 9 5 updEmptyW).state = stW
      ∧ (update_server stW 9 5 updEmptyW).writes = []
      ∧ ApiError.noFieldsToUpdate.statusCode = 400) :=
  ⟨⟨by decide, by decide, by decide⟩,
    empty_update_rejected stW 9 5 updEmptyW rfl rfl rfl⟩

/-- C4: a get, update (supplying at least one field, with any supplied
datacenter valid), or delete addressed to an id with no matching row
fails with NotFound (status 404) and mutates nothing; a get of an
existing id returns the row unchanged, without touching the store. -/
theorem missing_id_not_found (st : DBState) (now sid : Int)
    (u : ServerUpdate)
    (hnone : findServer st sid = none)
    (hfields : u.hostname ≠ none ∨ u.configuration ≠ none ∨
      u.datacenter_id ≠ none)
    (hdc : ∀ v, u.datacenter_id = some v → datacenterExists st v = true) :
    ((get_server st sid).result = .error (.notFound sid)
      ∧ (get_server st sid).state = st ∧ (get_server st sid).writes = [])
    ∧ ((update_server st now sid u).result = .error (.notFound sid)
      ∧ (update_server st now sid u).state = st)
    ∧ ((delete_server st sid).result = .error (.notFound sid)
      ∧ (delete_server st sid).state = st
      ∧ (delete_server st sid).writes = [])
    ∧ (∀ st2 sid2 r, findServer st2 sid2 = some r →
        (get_server st2 sid2).result = .ok r
        ∧ (get_server st2 sid2).state = st2)
    ∧ (ApiError.notFound sid).statusCode = 404 := by
  have hb := buildUpdateFields_ok st u hdc
  have hne := expectedFields_ne_nil u hfields
  have he : (expectedFields u).isEmpty = false := by
    cases hx : expectedFields u with
    | nil => exact absurd hx hne
    | cons a l => rfl
  refine ⟨⟨?_, ?_, ?_⟩, ⟨?_, ?_⟩, ⟨?_, ?_, ?_⟩, ?_, rfl⟩
  · simp [get_server, hnone]
  · simp [get_server, hnone]
  · simp [get_server, hnone]
  · simp [update_server, hb, he, hnone]
  · simp [update_server, hb, he, hnone]
  · simp [delete_server, hnone]
  · simp [delete_server, hnone]
  · simp [delete_server, hnone]
  · intro st2 sid2 r hr
    exact ⟨by simp [get_server, hr], by simp [get_server, hr]⟩

/-- Witness for C4: id 99 matches no row of the concrete store; get,
update (hostname only) and delete of 99 all fail with NotFound and leave
the store as it was, while get of the existing id 5 returns row 5. -/
theorem missing_id_not_found_witness :
    (findServer stW 99 = none
      ∧ (updHostnameW.hostname ≠ none ∨ updHostnameW.configuration ≠ none ∨
          updHostnameW.datacenter_id ≠ none)
      ∧ (∀ v, updHostnameW.datacenter_id = some v →
          datacenterExists stW v = true))
    ∧ (((get_server stW 99).result = .error (.notFound 99)
      ∧ (get_server stW 99).state = stW ∧ (get_server stW 99).writes = [])
    ∧ ((update_server stW 9 99 updHostnameW).result = .error (.notFound 99)
      ∧ (update_server stW 9 99 updHostnameW).state = stW)
    ∧ ((delete_server stW 99).result = .error (.notFound 99)
      ∧ (delete_server stW 99).state = stW
      ∧ (delete_server stW 99).writes = [])
    ∧ (∀ st2 sid2 r, findServer st2 sid2 = some r →
        (get_server st2 sid2).result = .ok r
        ∧ (get_server st2 sid2).state = st2)
    ∧ (ApiError.notFound 99).statusCode = 404) :=
  ⟨⟨by decide, by decide, by decide⟩,
    missing_id_not_found stW 9 99 updHostnameW (by decide) (by decide)
      (by decide)⟩

/-- C9: an update naming both a nonexistent target server and a
nonexistent datacenter fails with InvalidReference (400), not NotFound
(404): the datacenter check runs inside the assignment-building loop,
before the target row's existence is ever examined. -/
theorem invalid_dc_checked_before_target (st : DBState) (now sid : Int)
    (u : ServerUpdate) (v : Option Int)
    (hnone : findServer st sid = none)
    (hup : u.datacenter_id = some v)
    (hv : datacenterExists st v = false) :
    buildUpdateFields st u = .error (.invalidReference v)
    ∧ (update_server st now sid u).result = .error (.invalidReference v)
    ∧ (update_server st now sid u).result ≠ .error (.notFound sid)
    ∧ (ApiError.invalidReference v).statusCode = 400
    ∧ (ApiError.notFound sid).statusCode = 404 := by
  have hb := buildUpdateFields_err st u v hup hv
  refine ⟨hb, ?_, ?_, rfl, rfl⟩
  · simp [update_server, hb]
  · simp [update_server, hb]

/-- Witness for C9: id 99 matches no row and datacenter 999 does not
exist, yet the update fails with InvalidReference, not NotFound. -/
theorem invalid_dc_checked_before_target_witness :
    (findServer stW 99 = none
      ∧ updBadDcW.datacenter_id = some (some 999)
      ∧ datacenterExists stW (some 999) = false)
    ∧ (buildUpdateFields stW updBadDcW = .error (.invalidReference (some 999))
      ∧ (update_server stW 9 99 updBadDcW).result =
          .error (.invalidReference (some 999))
      ∧ (update_server stW 9 99 updBadDcW).result ≠ .error (.notFound 99)
      ∧ (ApiError.invalidReference (some 999)).statusCode = 400
      ∧ (ApiError.notFound 99).statusCode = 404) :=
  ⟨⟨by decide, by decide, by decide⟩,
    invalid_dc_checked_before_target stW 9 99 updBadDcW (some 999)
      (by decide) (by decide) (by decide)⟩

/-- C6: a list request with `limit` above 1000 behaves exactly as one
with `limit` 1000 — the effective page size used against the store is
1000 — the parameter defaults are `skip = 0` and `limit = 100`, and the
returned page is the ascending-id ordering of the table with `skip` rows
skipped. -/
theorem list_limit_cap (st : DBState) (skip limit : Int)
    (hs : 0 ≤ skip) (hl : 1000 < limit) :
    get_all_servers st skip limit = get_all_servers st skip 1000
    ∧ effectiveLimit limit = 1000
    ∧ defaultSkip = 0 ∧ defaultLimit = 100
    ∧ (∀ l, (get_all_servers st skip limit).result = .ok l →
        List.Sorted serverIdLE l
        ∧ l = ((sortById st.servers).drop skip.toNat).take 1000) := by
  have he : effectiveLimit limit = 1000 := min_eq_right (le_of_lt hl)
  have he2 : effectiveLimit 1000 = 1000 := min_self 1000
  have hns : ¬ skip < 0 := not_lt.mpr hs
  refine ⟨?_, he, rfl, rfl, ?_⟩
  · simp [get_all_servers, he, he2]
  · intro l hres
    simp only [get_all_servers, he, hns, false_or] at hres
    rw [if_neg (by norm_num)] at hres
    simp only [Except.ok.injEq] at hres
    subst hres
    constructor
    · have hsorted : List.Sorted serverIdLE (sortById st.servers) :=
        List.sorted_insertionSort serverIdLE st.servers
      have hsub : List.Sublist
          (((sortById st.servers).drop skip.toNat).take (1000 : Int).toNat)
          (sortById st.servers) :=
        (List.take_sublist _ _).trans (List.drop_sublist _ _)
      exact List.Pairwise.sublist hsub hsorted
    · rfl

/-- Witness for C6: against the concrete store, listing with
`skip = 0, limit = 5000` equals listing with `limit = 1000`, and the
returned page is sorted ascending by id. -/
theorem list_limit_cap_witness :
    ((0 : Int) ≤ 0 ∧ (1000 : Int) < 5000)
    ∧ (get_all_servers stW 0 5000 = get_all_servers stW 0 1000
      ∧ effectiveLimit 5000 = 1000
      ∧ defaultSkip = 0 ∧ defaultLimit = 100
      ∧ (∀ l, (get_all_servers stW 0 5000).result = .ok l →
          List.Sorted serverIdLE l
          ∧ l = ((sortById stW.servers).drop (0 : Int).toNat).take 1000)) :=
  ⟨⟨by decide, by decide⟩, list_limit_cap stW 0 5000 (by decide) (by decide)⟩

/-- A concrete create body whose datacenter (1) exists in `stW`: the
spec's scenario of a valid create. -/
def baseW : ServerBase :=
  { hostname := "db2", configuration := { cpu_cores := some 4, ram_gb := some 16 },
    datacenter_id := 1 }

/-- C7: the claim — a valid create returns a record with
`created_at = modified_at` and a store-assigned id — describes the
intended behavior, but the code cannot produce it: at this valid create
(datacenter 1 exists) `psycopg2.extras.Json(server.configuration)`
wraps the pydantic model instance, `json.dumps` raises `TypeError`
while `cur.execute` adapts the INSERT's parameters, and the handler
ends in an unhandled 500 with nothing inserted and no record returned. -/
theorem create_valid_raises_typeerror :
    (create_server stW 3 baseW).result = .error .storeFailure
    ∧ (create_server stW 3 baseW).state = stW
    ∧ (create_server stW 3 baseW).writes = []
    ∧ ApiError.storeFailure.statusCode = 500
    ∧ datacenterExists stW (some baseW.datacenter_id) = true :=
  ⟨rfl, rfl, rfl, rfl, rfl⟩

/-- C8: the claim — a configuration submitted as a nested object
round-trips identically through create followed by get — describes the
intended behavior, but the create leg never persists anything: the same
`TypeError` at `servers.py` line 137 aborts every valid create before
the INSERT, the store is unchanged, and a get of the id the store would
have assigned (`nextId`) finds no row to read the document back from. -/
theorem configuration_roundtrip_broken :
    (create_server stW 3 baseW).result = .error .storeFailure
    ∧ (create_server stW 3 baseW).state = stW
    ∧ (get_server (create_server stW 3 baseW).state stW.nextId).result =
        .error (.notFound stW.nextId)
    ∧ jsonDumps (.pydanticModel baseW.configuration) =
        .error .storeFailure :=
  ⟨rfl, rfl, rfl, rfl⟩

/-- C10: a field explicitly set to null counts as supplied: an explicit
null `hostname` and an explicit null `configuration` each appear in the
assignment set and are written to the row as null column values, while an
explicit null `datacenter_id` goes through the datacenter existence check
(which a NULL id can never pass) and so fails with InvalidReference. -/
theorem explicit_null_counts_as_supplied (st : DBState) (now sid : Int)
    (u u2 : ServerUpdate) (r : ServerRow)
    (hfind : findServer st sid = some r)
    (hh : u.hostname = some none)
    (hcfg : u.configuration = some none)
    (hdc : ∀ v, u.datacenter_id = some v → datacenterExists st v = true)
    (h2 : u2.datacenter_id = some none) :
    (ColumnAssign.hostname none ∈ expectedFields u
      ∧ ColumnAssign.configuration none ∈ expectedFields u
      ∧ buildUpdateFields st u = .ok (expectedFields u))
    ∧ (∃ r', (update_server st now sid u).result = .ok r'
        ∧ r'.hostname = none ∧ r'.configuration = none)
    ∧ (update_server st now sid u2).result = .error (.invalidReference none)
    ∧ (ApiError.invalidReference none).statusCode = 400 := by
  have hberr : buildUpdateFields st u2 = .error (.invalidReference none) :=
    buildUpdateFields_err st u2 none h2 rfl
  obtain ⟨uh, uc, ud⟩ := u
  have hh' : uh = some none := by simpa using hh
  have hc' : uc = some none := by simpa using hcfg
  subst hh'; subst hc'
  have hb := buildUpdateFields_ok st ⟨some none, some none, ud⟩ hdc
  have hne : expectedFields ⟨some none, some none, ud⟩ ≠ [] := by
    cases ud <;> simp [expectedFields]
  have hres := update_server_result_ok st now sid _ _ r hb hne hfind
  refine ⟨⟨?_, ?_, hb⟩, ⟨applyAssigns now r _, hres, ?_, ?_⟩, ?_, rfl⟩
  · cases ud <;> simp [expectedFields]
  · cases ud <;> simp [expectedFields]
  · cases ud <;> simp [expectedFields, applyAssigns, applyAssign]
  · cases ud <;> simp [expectedFields, applyAssigns, applyAssign]
  · simp [update_server, hberr]

/-- A partial update that explicitly nulls `hostname` and
`configuration`. -/
def updNullW : ServerUpdate :=
  { hostname := some none, configuration := some none }

/-- A partial update that explicitly nulls `datacenter_id`. -/
def updNullDcW : ServerUpdate := { datacenter_id := some none }

/-- Witness for C10: nulling `hostname` and `configuration` of server 5
writes null columns; nulling `datacenter_id` fails with
InvalidReference. -/
theorem explicit_null_counts_as_supplied_witness :
    (findServer stW 5 = some rowW
      ∧ updNullW.hostname = some none
      ∧ updNullW.configuration = some none
      ∧ (∀ v, updNullW.datacenter_id = some v →
          datacenterExists stW v = true)
      ∧ updNullDcW.datacenter_id = some none)
    ∧ ((ColumnAssign.hostname none ∈ expectedFields updNullW
      ∧ ColumnAssign.configuration none ∈ expectedFields updNullW
      ∧ buildUpdateFields stW updNullW = .ok (expectedFields updNullW))
    ∧ (∃ r', (update_server stW 9 5 updNullW).result = .ok r'
        ∧ r'.hostname = none ∧ r'.configuration = none)
    ∧ (update_server stW 9 5 updNullDcW).result =
        .error (.invalidReference none)
    ∧ (ApiError.invalidReference none).statusCode = 400) :=
  ⟨⟨by decide, by decide, by decide, by decide, by decide⟩,
    explicit_null_counts_as_supplied stW 9 5 updNullW updNullDcW rowW
      (by decide) (by decide) (by decide) (by decide) (by decide)⟩

end ServerMgmt
